import Mathlib

/-!
Verification of the AuthProviderConnector authentication core against its
natural-language specification.

The definitions below are a shallow embedding of the Python source:

* `jwtEncode` / `jwtDecode` model the PyJWT `jwt.encode` / `jwt.decode`
  semantics the service relies on (symmetric signing idealised as key
  equality; `jwt.decode` verifies the signature before any claim, and
  validates `exp` before issuer/audience, mirroring PyJWT's
  `_verify_signature` + `_validate_claims` order; a wrong-key signature
  failure is `InvalidSignatureError`, a subclass of `DecodeError`).
* `create_access_token`, `create_refresh_token`,
  `verify_and_decode_access_token`, `verify_and_decode_refresh_token`
  embed `src/authproviderconnector/context/users/application/jwt_service.py`.
* `User.add_linked_account` embeds `contexts/users/domain/entities.py`.
* `syncDeletes` / `syncInserts` / `syncResult` embed
  `PostgreSQLUserRepository._sync_linked_accounts`, `save_user` embeds
  `_save_with_session`, `find_by_linked_account` / `find_by_id` embed the
  corresponding queries, and `resolve_user` embeds the reconciliation part
  of `Auth0Client.verify_and_decode_token`
  (all in `src/authproviderconnector/context/users/infrastructure/`).
* `callback_execute` embeds `CallbackUseCase.execute` and
  `get_authenticated_user_execute` embeds
  `GetAuthenticatedUserUseCase.execute`.

Time is modelled as epoch seconds (`Int`), UUIDs as `Nat`.
-/

namespace AuthProviderConnector

/-! ## PyJWT semantics -/

/-- The claim set of an internally issued JWT (`InternalTokenData` in
`types.py`).  `typ` models the `"type"` claim; it is `Option` because an
arbitrary token need not carry it (`payload.get("type")`). -/
structure InternalPayload where
  sub : String
  iat : Int
  exp : Int
  iss : String
  aud : String
  typ : Option String
deriving DecidableEq

/-- A compact signed JWT, idealised: it records the header algorithm, the
symmetric key it was signed with, and its payload.  Signature verification
succeeds exactly when the verifier supplies the same key. -/
structure SignedToken where
  alg : String
  key : String
  payload : InternalPayload
deriving DecidableEq

/-- The PyJWT exceptions relevant to this service.  `invalidSignature` is
`InvalidSignatureError`, a subclass of `DecodeError`; `invalidAlgorithm` is
`InvalidAlgorithmError`, a subclass of `InvalidTokenError`. -/
inductive PyJwtError where
  | expiredSignature
  | invalidAudience
  | invalidIssuer
  | invalidSignature
  | decodeFailure
  | invalidAlgorithm
deriving DecidableEq

/-- `jwt.encode` raises `NotImplementedError` when the requested algorithm
is not registered. -/
inductive EncodeError where
  | algorithmNotSupported
deriving DecidableEq

/-- The HS family PyJWT always supports (the service is configured with
`HS256` by default). -/
def pyJwtSupportedAlgorithms : List String :=
  ["none", "HS256", "HS384", "HS512", "RS256", "RS384", "RS512", "ES256"]

/-- `jwt.encode(payload, key, algorithm=alg)`. -/
def jwtEncode (payload : InternalPayload) (key : String) (alg : String) :
    Except EncodeError SignedToken :=
  if pyJwtSupportedAlgorithms.contains alg then .ok ⟨alg, key, payload⟩
  else .error .algorithmNotSupported

/-- `jwt.decode(token, key, algorithms=algorithms, audience=audience,
issuer=issuer)` evaluated at time `now`.  Order of checks follows PyJWT:
header algorithm, signature, then claims with `exp` validated before
issuer and audience. -/
def jwtDecode (token : SignedToken) (key : String) (algorithms : List String)
    (audience issuer : String) (now : Int) : Except PyJwtError InternalPayload :=
  if ¬ algorithms.contains token.alg then .error .invalidAlgorithm
  else if token.key ≠ key then .error .invalidSignature
  else if token.payload.exp < now then .error .expiredSignature
  else if token.payload.iss ≠ issuer then .error .invalidIssuer
  else if token.payload.aud ≠ audience then .error .invalidAudience
  else .ok token.payload

/-! ## Settings (`src/config.py`) -/

/-- The configuration fields `jwt_service.py` reads. -/
structure Settings where
  ACCESS_TOKEN_SECRET_KEY : String
  REFRESH_TOKEN_SECRET_KEY : String
  INTERNAL_JWT_ALGORITHM : String
  ACCESS_TOKEN_EXPIRATION_MINUTES : Int
  REFRESH_TOKEN_EXPIRATION_DAYS : Int
  AUTH_PROVIDER_CONNECTOR_API_URL : Option String
  ENVIRONMENT : String
deriving DecidableEq

/-- Python's `str.rstrip("/")`. -/
def rstripSlash (s : String) : String :=
  ⟨(s.data.reverse.dropWhile (fun c => c = '/')).reverse⟩

/-- `Settings.api_base_url`. -/
def Settings.api_base_url (s : Settings) : String :=
  rstripSlash (s.AUTH_PROVIDER_CONNECTOR_API_URL.getD "http://localhost:8000")

/-- `Settings.base_redirect_path`. -/
def Settings.base_redirect_path (s : Settings) : String :=
  if s.ENVIRONMENT = "production" then "/backend" else ""

/-- The internal issuer/audience string
`f"{settings.api_base_url}{settings.base_redirect_path}"`. -/
def Settings.internalIssuer (s : Settings) : String :=
  s.api_base_url ++ s.base_redirect_path

/-- The field defaults declared in `src/config.py`. -/
def defaultSettings : Settings :=
  ⟨"your-access-token-secret-key-change-in-production",
   "your-refresh-token-secret-key-change-in-production",
   "HS256", 15, 7, none, "development"⟩

/-! ## jwt_service.py -/

/-- The subtree of `TokenVerificationError` in `domain/exception.py`. -/
inductive TokenVerificationError where
  | tokenExpired
  | invalidTokenSignature
  | tokenDecode
  | invalidTokenType
  | missingTokenClaim
  | jwksFetch
deriving DecidableEq

/-- The `except` clauses shared by `verify_and_decode_access_token` and
`verify_and_decode_refresh_token`: `ExpiredSignatureError` becomes
`TokenExpiredError`; `InvalidAudienceError` / `InvalidIssuerError` become
`InvalidTokenSignatureError`; `DecodeError` (which includes
`InvalidSignatureError`) and any remaining `InvalidTokenError` become
`TokenDecodeError`. -/
def mapInternalJwtError : PyJwtError → TokenVerificationError
  | .expiredSignature => .tokenExpired
  | .invalidAudience => .invalidTokenSignature
  | .invalidIssuer => .invalidTokenSignature
  | .invalidSignature => .tokenDecode
  | .decodeFailure => .tokenDecode
  | .invalidAlgorithm => .tokenDecode

/-- `create_access_token` (`jwt_service.py` lines 28-55): `sub` is the
caller-supplied user id, `exp` is `now` plus the configured minutes,
issuer = audience = the internal base URL, `type` is `"access"`, signed
with the access secret. -/
def create_access_token (s : Settings) (user_id : String) (now : Int) :
    Except EncodeError SignedToken :=
  jwtEncode
    ⟨user_id, now, now + 60 * s.ACCESS_TOKEN_EXPIRATION_MINUTES,
     s.internalIssuer, s.internalIssuer, some "access"⟩
    s.ACCESS_TOKEN_SECRET_KEY s.INTERNAL_JWT_ALGORITHM

/-- `create_refresh_token` (`jwt_service.py` lines 58-83): like the access
token but with the refresh lifetime in days, `type` `"refresh"`, and the
refresh secret. -/
def create_refresh_token (s : Settings) (user_id : String) (now : Int) :
    Except EncodeError SignedToken :=
  jwtEncode
    ⟨user_id, now, now + 86400 * s.REFRESH_TOKEN_EXPIRATION_DAYS,
     s.internalIssuer, s.internalIssuer, some "refresh"⟩
    s.REFRESH_TOKEN_SECRET_KEY s.INTERNAL_JWT_ALGORITHM

/-- `verify_and_decode_access_token` (`jwt_service.py` lines 86-114):
decode with the access secret, map the PyJWT exceptions, then reject a
payload whose `"type"` claim is not `"access"`. -/
def verify_and_decode_access_token (s : Settings) (token : SignedToken)
    (now : Int) : Except TokenVerificationError InternalPayload :=
  match jwtDecode token s.ACCESS_TOKEN_SECRET_KEY [s.INTERNAL_JWT_ALGORITHM]
      s.internalIssuer s.internalIssuer now with
  | .error e => .error (mapInternalJwtError e)
  | .ok payload =>
      if payload.typ ≠ some "access" then .error .invalidTokenType
      else .ok payload

/-- `verify_and_decode_refresh_token` (`jwt_service.py` lines 117-160):
decode with the refresh secret, map the PyJWT exceptions, then reject a
payload whose `"type"` claim is not `"refresh"`. -/
def verify_and_decode_refresh_token (s : Settings) (token : SignedToken)
    (now : Int) : Except TokenVerificationError InternalPayload :=
  match jwtDecode token s.REFRESH_TOKEN_SECRET_KEY [s.INTERNAL_JWT_ALGORITHM]
      s.internalIssuer s.internalIssuer now with
  | .error e => .error (mapInternalJwtError e)
  | .ok payload =>
      if payload.typ ≠ some "refresh" then .error .invalidTokenType
      else .ok payload

/-! ## Domain entities (`contexts/users/domain/entities.py`) -/

/-- The subtree of `UserManagementError` in `domain/exception.py`. -/
inductive UserManagementError where
  | userSearch
  | userCreation
  | userUpdate
  | databaseConnection
  | dataIntegrity
  | duplicateLinkedAccount
deriving DecidableEq

/-- The frozen `LinkedAccount` child entity. -/
structure LinkedAccount where
  user_id : Nat
  provider_name : String
  provider_user_id : String
deriving DecidableEq

/-- The identity key of a linked account. -/
def LinkedAccount.key (a : LinkedAccount) : String × String :=
  (a.provider_name, a.provider_user_id)

/-- The `User` aggregate root; `linked_accounts` is the private
`_linked_accounts` list. -/
structure User where
  id : Nat
  email : String
  name : String
  picture : Option String
  linked_accounts : List LinkedAccount
deriving DecidableEq

/-- `User.add_linked_account`: scan the current accounts for one with the
same `(provider_name, provider_user_id)`; if found raise
`DuplicateLinkedAccountError` — the raise precedes the append, so `self`
is untouched — otherwise append a new `LinkedAccount`.  The first
component is the raised exception (if any), the second the state of the
user afterwards. -/
def User.add_linked_account (u : User)
    (provider_name provider_user_id : String) :
    Option UserManagementError × User :=
  if u.linked_accounts.any fun a =>
      a.provider_name == provider_name && a.provider_user_id == provider_user_id then
    (some .duplicateLinkedAccount, u)
  else
    (none, { u with linked_accounts :=
        u.linked_accounts ++ [⟨u.id, provider_name, provider_user_id⟩] })

/-- `User.to_token_payload` returns `{"user_id": str(self.id)}`; the
embedding keeps just the `user_id` string. -/
def User.to_token_payload (u : User) : String :=
  toString u.id

/-! ## Persisted rows and diff sync
(`infrastructure/model.py`, `infrastructure/repository.py`) -/

/-- A `LinkedAccountModel` row. -/
structure LinkedAccountRow where
  id : Nat
  user_id : Nat
  provider_name : String
  provider_user_id : String
deriving DecidableEq

/-- The identity key of a persisted linked-account row. -/
def LinkedAccountRow.key (r : LinkedAccountRow) : String × String :=
  (r.provider_name, r.provider_user_id)

/-- One step of building a Python dict from `(key, value)` pairs: a
repeated key keeps its first position but takes the later value. -/
def pyDictInsert {α : Type} (acc : List ((String × String) × α))
    (p : (String × String) × α) : List ((String × String) × α) :=
  if (acc.map Prod.fst).contains p.1 then
    acc.map fun q => if q.1 = p.1 then (q.1, p.2) else q
  else acc ++ [p]

/-- A Python dict comprehension over a list of `(key, value)` pairs. -/
def pyDict {α : Type} (l : List ((String × String) × α)) :
    List ((String × String) × α) :=
  l.foldl pyDictInsert []

/-- `existing_accounts`: the persisted rows keyed by
`(provider_name, provider_user_id)` (`_sync_linked_accounts` lines
246-249). -/
def existing_accounts (rows : List LinkedAccountRow) :
    List ((String × String) × LinkedAccountRow) :=
  pyDict (rows.map fun r => (r.key, r))

/-- `new_accounts_map`: the in-memory accounts keyed the same way
(lines 252-254). -/
def new_accounts_map (accounts : List LinkedAccount) :
    List ((String × String) × LinkedAccount) :=
  pyDict (accounts.map fun a => (a.key, a))

/-- The rows passed to `session.delete`: entries of the existing map whose
key is absent from the new map (lines 257-259). -/
def syncDeletes (rows : List LinkedAccountRow)
    (accounts : List LinkedAccount) : List LinkedAccountRow :=
  ((existing_accounts rows).filter fun p =>
      ¬ ((new_accounts_map accounts).map Prod.fst).contains p.1).map Prod.snd

/-- The rows appended to `user_model.linked_accounts`: entries of the new
map whose key is absent from the existing map, each with a fresh `uuid4()`
id, modelled by `fresh` (lines 262-270). -/
def syncInserts (fresh : String × String → Nat) (userId : Nat)
    (rows : List LinkedAccountRow) (accounts : List LinkedAccount) :
    List LinkedAccountRow :=
  ((new_accounts_map accounts).filter fun p =>
      ¬ ((existing_accounts rows).map Prod.fst).contains p.1).map
    fun p => ⟨fresh p.1, userId, p.2.provider_name, p.2.provider_user_id⟩

/-- The linked-account rows persisted for the user once
`_sync_linked_accounts` has run and the session committed: the original
rows minus the deleted ones, plus the inserted ones. -/
def syncResult (fresh : String × String → Nat) (userId : Nat)
    (rows : List LinkedAccountRow) (accounts : List LinkedAccount) :
    List LinkedAccountRow :=
  rows.filter (fun r => ¬ (syncDeletes rows accounts).contains r) ++
    syncInserts fresh userId rows accounts

/-! ## Repository over an abstract store -/

/-- A persisted `UserModel` row together with its linked-account rows. -/
structure StoredUser where
  id : Nat
  email : String
  name : String
  picture : Option String
  accounts : List LinkedAccountRow
deriving DecidableEq

/-- The relational store: the `users` table with joined rows. -/
abbrev Store := List StoredUser

/-- The loop of `_to_domain_entity`: add the stored accounts one by one
through `add_linked_account`; a raised exception aborts the loop. -/
def addAllAccounts : User → List LinkedAccountRow →
    Option UserManagementError × User
  | u, [] => (none, u)
  | u, r :: rs =>
    match u.add_linked_account r.provider_name r.provider_user_id with
    | (some e, u') => (some e, u')
    | (none, u') => addAllAccounts u' rs

/-- `PostgreSQLUserRepository._to_domain_entity` (lines 280-308). -/
def to_domain_entity (su : StoredUser) : Option UserManagementError × User :=
  addAllAccounts ⟨su.id, su.email, su.name, su.picture, []⟩ su.accounts

/-- `find_by_linked_account` (lines 96-149): select the users joined to a
linked-account row with the given key; `scalar_one_or_none` raises on more
than one result (a `SQLAlchemyError`, surfaced as `UserSearchError`). -/
def find_by_linked_account (st : Store)
    (provider_name provider_user_id : String) :
    Except UserManagementError (Option User) :=
  match st.filter fun su => su.accounts.any fun r =>
      r.provider_name == provider_name &&
        r.provider_user_id == provider_user_id with
  | [] => .ok none
  | [su] =>
    match to_domain_entity su with
    | (some e, _) => .error e
    | (none, u) => .ok (some u)
  | _ :: _ :: _ => .error .userSearch

/-- `find_by_id` (lines 54-94). -/
def find_by_id (st : Store) (user_id : Nat) :
    Except UserManagementError (Option User) :=
  match st.filter (fun su => su.id == user_id) with
  | [] => .ok none
  | [su] =>
    match to_domain_entity su with
    | (some e, _) => .error e
    | (none, u) => .ok (some u)
  | _ :: _ :: _ => .error .userSearch

/-- `save` / `_save_with_session` (lines 151-223): look the user up by id;
if present refresh `email`, `name`, `picture` and diff-sync the linked
accounts; otherwise insert the user row and one row per in-memory linked
account, each with a fresh `uuid4()` id. -/
def save_user (fresh : String × String → Nat) (st : Store) (u : User) :
    Except UserManagementError Store :=
  match st.filter (fun su => su.id == u.id) with
  | [] => .ok (st ++ [⟨u.id, u.email, u.name, u.picture,
      u.linked_accounts.map fun a =>
        ⟨fresh a.key, u.id, a.provider_name, a.provider_user_id⟩⟩])
  | [_] => .ok (st.map fun su =>
      if su.id == u.id then
        ⟨su.id, u.email, u.name, u.picture,
         syncResult fresh su.id su.accounts u.linked_accounts⟩
      else su)
  | _ :: _ :: _ => .error .userSearch

/-! ## Identity reconciliation (`infrastructure/auth0_client.py`) -/

/-- The claim set extracted from a verified provider ID token. -/
structure VerifiedClaim where
  provider_user_id : String
  email : String
  name : String
  picture : Option String
deriving DecidableEq

/-- The reconciliation tail of `Auth0Client.verify_and_decode_token`
(lines 170-183): look the user up by the `("auth0", sub)` linked account;
a found user is returned as-is; otherwise build a fresh user from the
claim, attach the linked account, and save. -/
def resolve_user (fresh : String × String → Nat) (freshUserId : Nat)
    (st : Store) (c : VerifiedClaim) :
    Except UserManagementError (User × Store) :=
  match find_by_linked_account st "auth0" c.provider_user_id with
  | .error e => .error e
  | .ok (some u) => .ok (u, st)
  | .ok none =>
    match (User.mk freshUserId c.email c.name c.picture
        []).add_linked_account "auth0" c.provider_user_id with
    | (some e, _) => .error e
    | (none, u) =>
      match save_user fresh st u with
      | .error e => .error e
      | .ok st' => .ok (u, st')

/-! ## Use cases (`application/usecase/`) -/

/-- The exceptions `verify_and_decode_token` can raise at the `IAuthClient`
port, as seen by `CallbackUseCase`. -/
inductive PyException where
  | tokenVerification (e : TokenVerificationError)
  | userManagement (e : UserManagementError)
  | other (msg : String)
deriving DecidableEq

/-- The outcomes of `CallbackUseCase.execute`; `uncaught` is an exception
escaping `execute` unwrapped. -/
inductive CallbackError where
  | getTokenFromProvider
  | missingIdToken
  | internalTokenCreation
  | uncaught (e : EncodeError)
deriving DecidableEq

/-- `CallbackUseCase.execute` together with `_create_internal_tokens`
(`callback.py` lines 38-111), written over the collaborator outcomes at
the `IAuthClient` port: `provider_token` is the result of
`get_token_from_provider` paired with the optional `"id_token"` entry of
the returned dict, and `verify` is the outcome of
`verify_and_decode_token` on the extracted ID token.  The `try` of
`_create_internal_tokens` ends before `to_token_payload` and the two
`create_*_token` calls, so a failure there leaves `execute` unwrapped. -/
def callback_execute (s : Settings)
    (provider_token : Except Unit (Option String))
    (verify : String → Except PyException User)
    (now : Int) : Except CallbackError (SignedToken × SignedToken) :=
  match provider_token with
  | .error _ => .error .getTokenFromProvider
  | .ok none => .error .missingIdToken
  | .ok (some id_token) =>
    match verify id_token with
    | .error _ => .error .internalTokenCreation
    | .ok user =>
      match create_access_token s user.to_token_payload now with
      | .error e => .error (.uncaught e)
      | .ok access_token =>
        match create_refresh_token s user.to_token_payload now with
        | .error e => .error (.uncaught e)
        | .ok refresh_token => .ok (access_token, refresh_token)

/-- The outcomes of `GetAuthenticatedUserUseCase.execute`;
`uncaughtValueError` is the `ValueError` of `UUID(...)`, which the code
does not catch (only `KeyError` is). -/
inductive GetAuthenticatedUserError where
  | accessTokenVerification
  | authenticatedUserNotFound
  | uncaughtValueError
deriving DecidableEq

/-- `GetAuthenticatedUserUseCase.execute` (`get_authenticated_user.py`
lines 26-53), over the repository port `repo_find` (the outcome of
`find_by_id`) and the UUID constructor `parse`. -/
def get_authenticated_user_execute (s : Settings)
    (repo_find : Nat → Except UserManagementError (Option User))
    (parse : String → Option Nat)
    (token : SignedToken) (now : Int) :
    Except GetAuthenticatedUserError User :=
  match verify_and_decode_access_token s token now with
  | .error _ => .error .accessTokenVerification
  | .ok payload =>
    match parse payload.sub with
    | none => .error .uncaughtValueError
    | some user_id =>
      match repo_find user_id with
      | .error _ => .error .accessTokenVerification
      | .ok none => .error .authenticatedUserNotFound
      | .ok (some u) => .ok u

/-! ## Declared relational schema (`infrastructure/model.py` and the
legacy `contexts/users/infrastructure/models.py`) -/

/-- A column declaration as written in the SQLAlchemy model. -/
structure ColumnDecl where
  name : String
  primary_key : Bool
  unique : Bool
  nullable : Bool
  indexed : Bool
deriving DecidableEq

/-- `UserModel` in `infrastructure/model.py` (lines 18-37). -/
def userModelColumns : List ColumnDecl :=
  [⟨"id", true, false, false, false⟩,
   ⟨"email", false, true, false, true⟩,
   ⟨"name", false, false, false, false⟩,
   ⟨"picture", false, false, true, false⟩]

/-- `LinkedAccountModel` in `infrastructure/model.py` (lines 40-59). -/
def linkedAccountModelColumns : List ColumnDecl :=
  [⟨"id", true, false, false, false⟩,
   ⟨"user_id", false, false, false, true⟩,
   ⟨"provider_name", false, false, false, false⟩,
   ⟨"provider_user_id", false, false, false, false⟩]

/-- `LinkedAccountModel` in the legacy
`contexts/users/infrastructure/models.py` (lines 32-45). -/
def legacyLinkedAccountModelColumns : List ColumnDecl :=
  [⟨"id", true, false, false, false⟩,
   ⟨"user_id", false, false, false, true⟩,
   ⟨"provider_name", false, false, false, false⟩,
   ⟨"provider_user_id", false, false, false, false⟩]

/-- Neither model file declares a `__table_args__`, so no composite
`UniqueConstraint` exists on either `linked_accounts` table. -/
def linkedAccountModelTableConstraints : List (List String) := []

/-- The legacy model likewise declares no table-level constraints. -/
def legacyLinkedAccountModelTableConstraints : List (List String) := []

/-- The sets of columns over which the declared schema enforces
uniqueness: single columns marked `unique=True`, the primary key, and any
composite table-level unique constraints. -/
def declaredUniqueKeySets (cols : List ColumnDecl)
    (tableConstraints : List (List String)) : List (List String) :=
  (cols.filter (·.unique)).map (fun c => [c.name]) ++
    (cols.filter (·.primary_key)).map (fun c => [c.name]) ++
    tableConstraints

/-! ## Theorems -/

/-- C1: internal-token round trip.  For any settings under which issuing
succeeds, verifying a freshly issued access (resp. refresh) token with the
verifier of the same kind, at any time at which the token is not yet
expired, succeeds and returns a payload whose `sub` equals the subject. -/
theorem C1_internal_token_round_trip (s : Settings) (subj : String)
    (now later now' later' : Int) (atok rtok : SignedToken)
    (hA : create_access_token s subj now = .ok atok)
    (hAfresh : ¬ atok.payload.exp < later)
    (hR : create_refresh_token s subj now' = .ok rtok)
    (hRfresh : ¬ rtok.payload.exp < later') :
    (∃ p, verify_and_decode_access_token s atok later = .ok p ∧ p.sub = subj) ∧
    (∃ q, verify_and_decode_refresh_token s rtok later' = .ok q ∧ q.sub = subj) := by
  unfold create_access_token jwtEncode at hA
  unfold create_refresh_token jwtEncode at hR
  by_cases hsup : pyJwtSupportedAlgorithms.contains s.INTERNAL_JWT_ALGORITHM
  · rw [if_pos hsup] at hA hR
    injection hA with hA
    injection hR with hR
    subst hA
    subst hR
    constructor
    · refine ⟨⟨subj, now, now + 60 * s.ACCESS_TOKEN_EXPIRATION_MINUTES,
          s.internalIssuer, s.internalIssuer, some "access"⟩, ?_, rfl⟩
      unfold verify_and_decode_access_token jwtDecode
      simp only [if_neg hAfresh]
      simp
    · refine ⟨⟨subj, now', now' + 86400 * s.REFRESH_TOKEN_EXPIRATION_DAYS,
          s.internalIssuer, s.internalIssuer, some "refresh"⟩, ?_, rfl⟩
      unfold verify_and_decode_refresh_token jwtDecode
      simp only [if_neg hRfresh]
      simp
  · rw [if_neg hsup] at hA
    exact absurd hA (by simp)

/-- C1 witness: the round trip evaluated on the default settings, subject
`"42"`, both tokens issued at time 0 and verified at time 0. -/
theorem C1_internal_token_round_trip_witness :
    (∃ p, verify_and_decode_access_token defaultSettings
        ⟨"HS256", "your-access-token-secret-key-change-in-production",
         ⟨"42", 0, 900, "http://localhost:8000", "http://localhost:8000",
          some "access"⟩⟩ 0 = .ok p ∧ p.sub = "42") ∧
    (∃ q, verify_and_decode_refresh_token defaultSettings
        ⟨"HS256", "your-refresh-token-secret-key-change-in-production",
         ⟨"42", 0, 604800, "http://localhost:8000", "http://localhost:8000",
          some "refresh"⟩⟩ 0 = .ok q ∧ q.sub = "42") := by
  exact C1_internal_token_round_trip defaultSettings "42" 0 0 0 0 _ _
    (by rfl) (by decide) (by rfl) (by decide)

/-- C2 counterexample: with the default settings (whose access and refresh
secrets differ), a freshly issued, unexpired access token presented to
`verify_and_decode_refresh_token` fails with `TokenDecodeError` — the
wrong-secret signature failure is a `DecodeError` and is raised before the
`type` check — not with `InvalidTokenTypeError` as the claim states. -/
theorem C2_wrong_kind_counterexample :
    create_access_token defaultSettings "42" 0 =
      .ok ⟨"HS256", "your-access-token-secret-key-change-in-production",
        ⟨"42", 0, 900, "http://localhost:8000", "http://localhost:8000",
         some "access"⟩⟩ ∧
    ¬ ((900 : Int) < 0) ∧
    verify_and_decode_refresh_token defaultSettings
      ⟨"HS256", "your-access-token-secret-key-change-in-production",
       ⟨"42", 0, 900, "http://localhost:8000", "http://localhost:8000",
        some "access"⟩⟩ 0 = .error .tokenDecode ∧
    TokenVerificationError.tokenDecode ≠ TokenVerificationError.invalidTokenType := by
  exact ⟨by rfl, by decide, by rfl, by decide⟩

/-- C2 amended: whenever the access and refresh secrets differ (as in the
default configuration), presenting a token of one kind to the verifier of
the other kind always fails with `TokenDecodeError` — the wrong-secret
signature failure, a decode failure — and the wrong-kind
`InvalidTokenTypeError` branch is never reached. -/
theorem C2_wrong_kind_amended (s : Settings) (subj : String)
    (now later now' later' : Int) (atok rtok : SignedToken)
    (hsec : s.ACCESS_TOKEN_SECRET_KEY ≠ s.REFRESH_TOKEN_SECRET_KEY)
    (hA : create_access_token s subj now = .ok atok)
    (hR : create_refresh_token s subj now' = .ok rtok) :
    verify_and_decode_refresh_token s atok later = .error .tokenDecode ∧
    verify_and_decode_access_token s rtok later' = .error .tokenDecode := by
  unfold create_access_token jwtEncode at hA
  unfold create_refresh_token jwtEncode at hR
  by_cases hsup : pyJwtSupportedAlgorithms.contains s.INTERNAL_JWT_ALGORITHM
  · rw [if_pos hsup] at hA hR
    injection hA with hA
    injection hR with hR
    subst hA
    subst hR
    constructor
    · unfold verify_and_decode_refresh_token jwtDecode
      simp [hsec, mapInternalJwtError]
    · unfold verify_and_decode_access_token jwtDecode
      simp [Ne.symm hsec, mapInternalJwtError]
  · rw [if_neg hsup] at hA
    exact absurd hA (by simp)

/-- C2 amended witness: the amended statement evaluated on the default
settings with both tokens issued at time 0 and cross-verified at time 0. -/
theorem C2_wrong_kind_amended_witness :
    verify_and_decode_refresh_token defaultSettings
      ⟨"HS256", "your-access-token-secret-key-change-in-production",
       ⟨"42", 0, 900, "http://localhost:8000", "http://localhost:8000",
        some "access"⟩⟩ 0 = .error .tokenDecode ∧
    verify_and_decode_access_token defaultSettings
      ⟨"HS256", "your-refresh-token-secret-key-change-in-production",
       ⟨"42", 0, 604800, "http://localhost:8000", "http://localhost:8000",
        some "refresh"⟩⟩ 0 = .error .tokenDecode := by
  exact C2_wrong_kind_amended defaultSettings "42" 0 0 0 0 _ _
    (by decide) (by rfl) (by rfl)

/-- C9: the expired outcome dominates.  Any token whose `exp` has passed
and whose signature is otherwise valid (correct header algorithm and
correct secret for the verifier in use) fails with `TokenExpiredError`,
regardless of its issuer, audience, or `type` claim — it is never mapped
to a signature, audience/issuer, or decode failure. -/
theorem C9_expired_outcome_dominates (s : Settings) (tok : SignedToken)
    (now : Int) (hExp : tok.payload.exp < now) :
    (tok.alg = s.INTERNAL_JWT_ALGORITHM → tok.key = s.ACCESS_TOKEN_SECRET_KEY →
      verify_and_decode_access_token s tok now = .error .tokenExpired) ∧
    (tok.alg = s.INTERNAL_JWT_ALGORITHM → tok.key = s.REFRESH_TOKEN_SECRET_KEY →
      verify_and_decode_refresh_token s tok now = .error .tokenExpired) := by
  constructor
  · intro halg hkey
    unfold verify_and_decode_access_token jwtDecode
    rw [halg, hkey]
    simp [hExp, mapInternalJwtError]
  · intro halg hkey
    unfold verify_and_decode_refresh_token jwtDecode
    rw [halg, hkey]
    simp [hExp, mapInternalJwtError]

/-- C9 witness: an expired access token carrying a wrong issuer, a wrong
audience and even a wrong `type` claim, but signed with the correct access
secret, is reported expired by the access verifier; symmetrically for an
expired refresh-secret-signed token. -/
theorem C9_expired_outcome_dominates_witness :
    verify_and_decode_access_token defaultSettings
      ⟨"HS256", "your-access-token-secret-key-change-in-production",
       ⟨"42", 0, 5, "https://evil.example", "https://evil.example",
        some "refresh"⟩⟩ 10 = .error .tokenExpired ∧
    verify_and_decode_refresh_token defaultSettings
      ⟨"HS256", "your-refresh-token-secret-key-change-in-production",
       ⟨"42", 0, 5, "https://evil.example", "https://evil.example",
        some "access"⟩⟩ 10 = .error .tokenExpired := by
  exact ⟨(C9_expired_outcome_dominates defaultSettings _ 10 (by decide)).1
      rfl rfl,
    (C9_expired_outcome_dominates defaultSettings _ 10 (by decide)).2
      rfl rfl⟩

/-- Any-scan in `add_linked_account` matched iff the key is among the
user's linked-account keys. -/
theorem add_scan_eq_mem (u : User) (pn pid : String) :
    (u.linked_accounts.any fun a =>
        a.provider_name == pn && a.provider_user_id == pid) = true ↔
      (pn, pid) ∈ u.linked_accounts.map LinkedAccount.key := by
  simp [List.any_eq_true, List.mem_map, LinkedAccount.key, Prod.ext_iff]

/-- C5: duplicate linked accounts are rejected at the aggregate boundary.
Adding an already-present `(provider_name, provider_user_id)` pair raises
`DuplicateLinkedAccountError` and leaves the user's linked-account list
unchanged; and a user whose linked-account keys are free of duplicates
keeps that invariant through any `add_linked_account` call, successful or
not.  (`add_linked_account` is a pure aggregate operation in the source:
it performs no repository call.) -/
theorem C5_duplicate_linked_account_rejected (u : User) (pn pid : String) :
    ((pn, pid) ∈ u.linked_accounts.map LinkedAccount.key →
      (u.add_linked_account pn pid).1 = some .duplicateLinkedAccount ∧
        (u.add_linked_account pn pid).2 = u) ∧
    ((u.linked_accounts.map LinkedAccount.key).Nodup →
      ((u.add_linked_account pn pid).2.linked_accounts.map
          LinkedAccount.key).Nodup) := by
  constructor
  · intro hmem
    have hc := (add_scan_eq_mem u pn pid).mpr hmem
    unfold User.add_linked_account
    rw [if_pos hc]
    exact ⟨rfl, rfl⟩
  · intro hnodup
    by_cases hc : (u.linked_accounts.any fun a =>
        a.provider_name == pn && a.provider_user_id == pid) = true
    · unfold User.add_linked_account
      rw [if_pos hc]
      exact hnodup
    · have hmem : (pn, pid) ∉ u.linked_accounts.map LinkedAccount.key :=
        fun h => hc ((add_scan_eq_mem u pn pid).mpr h)
      unfold User.add_linked_account
      rw [if_neg hc]
      simp only [List.map_append, List.map_cons, List.map_nil]
      rw [List.nodup_append]
      refine ⟨hnodup, List.nodup_singleton _, ?_⟩
      intro k hk hk'
      simp only [LinkedAccount.key, List.mem_singleton] at hk'
      exact hmem (hk' ▸ hk)

/-- C5 witness: a user already linked to `("auth0", "sub-1")` rejects a
second add of the same pair, keeps its single linked account, and the
no-duplicate invariant is preserved. -/
theorem C5_duplicate_linked_account_rejected_witness :
    ((User.mk 1 "e@example.com" "N" none
        [⟨1, "auth0", "sub-1"⟩]).add_linked_account "auth0" "sub-1").1 =
      some .duplicateLinkedAccount ∧
    ((User.mk 1 "e@example.com" "N" none
        [⟨1, "auth0", "sub-1"⟩]).add_linked_account "auth0" "sub-1").2 =
      User.mk 1 "e@example.com" "N" none [⟨1, "auth0", "sub-1"⟩] ∧
    (((User.mk 1 "e@example.com" "N" none
        [⟨1, "auth0", "sub-1"⟩]).add_linked_account "auth0"
          "sub-1").2.linked_accounts.map LinkedAccount.key).Nodup := by
  have h := C5_duplicate_linked_account_rejected
    (User.mk 1 "e@example.com" "N" none [⟨1, "auth0", "sub-1"⟩])
    "auth0" "sub-1"
  exact ⟨(h.1 (by decide)).1, (h.1 (by decide)).2, h.2 (by decide)⟩

/-- C6 counterexample: neither `LinkedAccountModel` (current nor legacy)
declares a uniqueness constraint on `(provider_name, provider_user_id)`:
that key set is not among the declared unique key sets, and no column of
either table is marked `unique=True`.  The claim that the storage layer
declares this constraint is false. -/
theorem C6_linked_account_uniqueness_counterexample :
    ["provider_name", "provider_user_id"] ∉
        declaredUniqueKeySets linkedAccountModelColumns
          linkedAccountModelTableConstraints ∧
    ["provider_name", "provider_user_id"] ∉
        declaredUniqueKeySets legacyLinkedAccountModelColumns
          legacyLinkedAccountModelTableConstraints ∧
    (∀ c ∈ linkedAccountModelColumns, c.unique = false) ∧
    (∀ c ∈ legacyLinkedAccountModelColumns, c.unique = false) := by
  decide

/-- C6 amended: the only uniqueness the declared schema enforces on
`linked_accounts` is the primary key `id` (both model files), and on
`users` it is `email` plus the primary key; no constraint covers the
linked-account key, so the declared schema does not convert the
concurrent first-login race into an integrity failure. -/
theorem C6_linked_account_uniqueness_amended :
    declaredUniqueKeySets linkedAccountModelColumns
        linkedAccountModelTableConstraints = [["id"]] ∧
    declaredUniqueKeySets legacyLinkedAccountModelColumns
        legacyLinkedAccountModelTableConstraints = [["id"]] ∧
    declaredUniqueKeySets userModelColumns [] = [["email"], ["id"]] := by
  decide

/-- C7 counterexample: a returning user whose stored profile is
`old@example.com` logs in with a verified claim carrying
`new@example.com`; `verify_and_decode_token` returns the stored user
unchanged and performs no save — the email (and name/picture) are not
refreshed, contradicting the claim. -/
theorem C7_returning_user_refresh_counterexample :
    resolve_user (fun _ => 99) 2
      [⟨1, "old@example.com", "Old Name", none, [⟨10, 1, "auth0", "sub-1"⟩]⟩]
      ⟨"sub-1", "new@example.com", "New Name",
        some "https://pic.example/p.png"⟩ =
      .ok (⟨1, "old@example.com", "Old Name", none, [⟨1, "auth0", "sub-1"⟩]⟩,
        [⟨1, "old@example.com", "Old Name", none,
          [⟨10, 1, "auth0", "sub-1"⟩]⟩]) ∧
    "old@example.com" ≠ "new@example.com" := by
  exact ⟨by rfl, by decide⟩

/-- C7 amended: on every subsequent successful login of a known provider
identity, `verify_and_decode_token` returns the User exactly as loaded
from storage and leaves the store untouched: email, name and picture are
not refreshed from the claim, and no save (hence no diff sync) occurs.
Profile refresh and diff sync live only inside repository `save`, which
the login flow calls solely for newly created users. -/
theorem C7_returning_user_no_refresh_amended (fresh : String × String → Nat)
    (freshUserId : Nat) (st : Store) (c : VerifiedClaim) (u : User)
    (h : find_by_linked_account st "auth0" c.provider_user_id = .ok (some u)) :
    resolve_user fresh freshUserId st c = .ok (u, st) := by
  unfold resolve_user
  rw [h]

/-- C7 amended witness: the no-refresh behaviour evaluated on a concrete
one-user store. -/
theorem C7_returning_user_no_refresh_amended_witness :
    resolve_user (fun _ => 7) 3
      [⟨5, "stored@example.com", "Stored", none, [⟨11, 5, "auth0", "s-9"⟩]⟩]
      ⟨"s-9", "claimed@example.com", "Claimed", none⟩ =
      .ok (⟨5, "stored@example.com", "Stored", none, [⟨5, "auth0", "s-9"⟩]⟩,
        [⟨5, "stored@example.com", "Stored", none,
          [⟨11, 5, "auth0", "s-9"⟩]⟩]) := by
  exact C7_returning_user_no_refresh_amended (fun _ => 7) 3 _ _ _ (by rfl)

/-- C8 counterexample: with an unsupported configured signing algorithm,
`create_access_token` raises inside `_create_internal_tokens` *after* the
`try` block has ended, so `CallbackUseCase.execute` propagates the raw
`NotImplementedError` — an outcome that is none of
`GetTokenFromProviderError`, `MissingIdTokenError`,
`InternalTokenCreationError` — refuting the closed-outcome claim. -/
theorem C8_callback_closed_outcomes_counterexample :
    callback_execute ⟨"a-secret", "r-secret", "HS1", 15, 7, none,
        "development"⟩
      (.ok (some "id-token"))
      (fun _ => .ok ⟨1, "e@example.com", "N", none, []⟩) 0 =
      .error (.uncaught .algorithmNotSupported) ∧
    CallbackError.uncaught EncodeError.algorithmNotSupported ≠
      CallbackError.internalTokenCreation ∧
    CallbackError.uncaught EncodeError.algorithmNotSupported ≠
      CallbackError.getTokenFromProvider ∧
    CallbackError.uncaught EncodeError.algorithmNotSupported ≠
      CallbackError.missingIdToken := by
  exact ⟨by rfl, by decide, by decide, by decide⟩

/-- C8 amended: every exception raised by `verify_and_decode_token` —
token-verification, user-management, or any other kind — is wrapped into
`InternalTokenCreationError`; and provided the configured internal signing
algorithm is supported (so that token encoding cannot raise), the outcome
set of `CallbackUseCase.execute` is closed: a token pair or exactly one of
the three named errors.  Failures of the internal token encoding itself
are *not* wrapped (they occur after the `try` block). -/
theorem C8_callback_closed_outcomes_amended (s : Settings)
    (provider_token : Except Unit (Option String))
    (verify : String → Except PyException User) (now : Int)
    (hsup : pyJwtSupportedAlgorithms.contains s.INTERNAL_JWT_ALGORITHM = true) :
    (∀ idt e, provider_token = .ok (some idt) → verify idt = .error e →
      callback_execute s provider_token verify now =
        .error .internalTokenCreation) ∧
    (callback_execute s provider_token verify now =
        .error .getTokenFromProvider ∨
      callback_execute s provider_token verify now = .error .missingIdToken ∨
      callback_execute s provider_token verify now =
        .error .internalTokenCreation ∨
      ∃ pair, callback_execute s provider_token verify now = .ok pair) := by
  constructor
  · rintro idt e rfl hv
    simp [callback_execute, hv]
  · match provider_token with
    | .error _ => left; rfl
    | .ok none => right; left; rfl
    | .ok (some idt) =>
      match hv : verify idt with
      | .error e =>
        right; right; left
        simp [callback_execute, hv]
      | .ok user =>
        right; right; right
        have hmem : s.INTERNAL_JWT_ALGORITHM ∈ pyJwtSupportedAlgorithms := by
          simpa using hsup
        refine ⟨(⟨s.INTERNAL_JWT_ALGORITHM, s.ACCESS_TOKEN_SECRET_KEY,
            ⟨user.to_token_payload, now,
             now + 60 * s.ACCESS_TOKEN_EXPIRATION_MINUTES,
             s.internalIssuer, s.internalIssuer, some "access"⟩⟩,
          ⟨s.INTERNAL_JWT_ALGORITHM, s.REFRESH_TOKEN_SECRET_KEY,
            ⟨user.to_token_payload, now,
             now + 86400 * s.REFRESH_TOKEN_EXPIRATION_DAYS,
             s.internalIssuer, s.internalIssuer, some "refresh"⟩⟩), ?_⟩
        simp [callback_execute, hv, create_access_token,
          create_refresh_token, jwtEncode, hsup, hmem]

/-- C8 amended witness: with the default settings, a repository failure
inside `verify_and_decode_token` surfaces as
`InternalTokenCreationError`. -/
theorem C8_callback_closed_outcomes_amended_witness :
    callback_execute defaultSettings (.ok (some "id-token"))
      (fun _ => .error (.userManagement .databaseConnection)) 0 =
      .error .internalTokenCreation := by
  exact (C8_callback_closed_outcomes_amended defaultSettings
      (.ok (some "id-token"))
      (fun _ => .error (.userManagement .databaseConnection)) 0
      (by decide)).1 "id-token" (.userManagement .databaseConnection)
    rfl rfl

/-- C10: `GetAuthenticatedUserUseCase.execute` conflates infrastructure
failure with token failure: any `UserManagementError` from `find_by_id`
yields `AccessTokenVerificationError`, exactly the outcome of an expired,
forged, or malformed token; `AuthenticatedUserNotFoundError` is raised iff
verification succeeds, the subject parses, and the lookup succeeds with no
user. -/
theorem C10_get_authenticated_user_conflation (s : Settings)
    (repo_find : Nat → Except UserManagementError (Option User))
    (parse : String → Option Nat) (tok : SignedToken) (now : Int) :
    (∀ e, verify_and_decode_access_token s tok now = .error e →
      get_authenticated_user_execute s repo_find parse tok now =
        .error .accessTokenVerification) ∧
    (∀ p uid e, verify_and_decode_access_token s tok now = .ok p →
      parse p.sub = some uid → repo_find uid = .error e →
      get_authenticated_user_execute s repo_find parse tok now =
        .error .accessTokenVerification) ∧
    (get_authenticated_user_execute s repo_find parse tok now =
        .error .authenticatedUserNotFound ↔
      ∃ p uid, verify_and_decode_access_token s tok now = .ok p ∧
        parse p.sub = some uid ∧ repo_find uid = .ok none) := by
  refine ⟨?_, ?_, ?_⟩
  · intro e h
    simp [get_authenticated_user_execute, h]
  · intro p uid e hv hp hf
    simp [get_authenticated_user_execute, hv, hp, hf]
  · rcases hv : verify_and_decode_access_token s tok now with e | p
    · constructor
      · intro h
        simp [get_authenticated_user_execute, hv] at h
      · rintro ⟨p, uid, hv2, -, -⟩
        exact absurd hv2 (by simp)
    · rcases hp : parse p.sub with - | uid
      · constructor
        · intro h
          simp [get_authenticated_user_execute, hv, hp] at h
        · rintro ⟨p2, uid, hv2, hp2, -⟩
          injection hv2 with hpe
          subst hpe
          rw [hp] at hp2
          exact absurd hp2 (by simp)
      · rcases hf : repo_find uid with e | ou
        · constructor
          · intro h
            simp [get_authenticated_user_execute, hv, hp, hf] at h
          · rintro ⟨p2, uid2, hv2, hp2, hf2⟩
            injection hv2 with hpe
            subst hpe
            rw [hp] at hp2
            injection hp2 with hue
            subst hue
            rw [hf] at hf2
            exact absurd hf2 (by simp)
        · rcases ou with - | u
          · constructor
            · intro _
              exact ⟨p, uid, rfl, hp, hf⟩
            · intro _
              simp [get_authenticated_user_execute, hv, hp, hf]
          · constructor
            · intro h
              simp [get_authenticated_user_execute, hv, hp, hf] at h
            · rintro ⟨p2, uid2, hv2, hp2, hf2⟩
              injection hv2 with hpe
              subst hpe
              rw [hp] at hp2
              injection hp2 with hue
              subst hue
              rw [hf] at hf2
              exact absurd hf2 (by simp)

/-- C10 witness: a valid access token for user 42 together with a
repository that raises `DatabaseConnectionError` yields
`AccessTokenVerificationError`. -/
theorem C10_get_authenticated_user_conflation_witness :
    get_authenticated_user_execute defaultSettings
      (fun _ => .error .databaseConnection)
      (fun s => if s = "42" then some 42 else none)
      ⟨"HS256", "your-access-token-secret-key-change-in-production",
       ⟨"42", 0, 900, "http://localhost:8000", "http://localhost:8000",
        some "access"⟩⟩ 0 = .error .accessTokenVerification := by
  exact (C10_get_authenticated_user_conflation defaultSettings
      (fun _ => .error .databaseConnection)
      (fun s => if s = "42" then some 42 else none) _ 0).2.1
    ⟨"42", 0, 900, "http://localhost:8000", "http://localhost:8000",
      some "access"⟩ 42 .databaseConnection (by rfl) (by rfl) rfl

/-- Folding `pyDictInsert` over pairs with pairwise-distinct keys appends
them unchanged. -/
theorem foldl_pyDictInsert {α : Type} (l acc : List ((String × String) × α))
    (h : ((acc ++ l).map Prod.fst).Nodup) :
    l.foldl pyDictInsert acc = acc ++ l := by
  induction l generalizing acc with
  | nil => simp
  | cons p tl ih =>
    have hmem : p.1 ∉ acc.map Prod.fst := by
      simp only [List.map_append, List.map_cons] at h
      rcases List.nodup_append.mp h with ⟨-, -, hdisj⟩
      intro hin
      exact hdisj hin (by simp)
    have hc : (acc.map Prod.fst).contains p.1 = false := by simpa using hmem
    have hstep : pyDictInsert acc p = acc ++ [p] := by
      unfold pyDictInsert
      rw [hc]
      rfl
    rw [List.foldl_cons, hstep,
      ih (acc ++ [p]) (by simpa [List.append_assoc] using h)]
    simp

/-- A Python dict built from pairs with pairwise-distinct keys is those
pairs. -/
theorem pyDict_eq_self {α : Type} (l : List ((String × String) × α))
    (h : (l.map Prod.fst).Nodup) : pyDict l = l := by
  simpa [pyDict] using foldl_pyDictInsert l [] (by simpa using h)

/-- With distinct persisted keys, `existing_accounts` is the keyed row
list itself. -/
theorem existing_accounts_eq (rows : List LinkedAccountRow)
    (hE : (rows.map LinkedAccountRow.key).Nodup) :
    existing_accounts rows = rows.map fun r => (r.key, r) := by
  unfold existing_accounts
  apply pyDict_eq_self
  simpa [List.map_map, Function.comp_def] using hE

/-- With distinct in-memory keys, `new_accounts_map` is the keyed account
list itself. -/
theorem new_accounts_map_eq (accs : List LinkedAccount)
    (hN : (accs.map LinkedAccount.key).Nodup) :
    new_accounts_map accs = accs.map fun a => (a.key, a) := by
  unfold new_accounts_map
  apply pyDict_eq_self
  simpa [List.map_map, Function.comp_def] using hN

/-- With duplicate-free key sets on both sides, the deleted rows are the
persisted rows whose key is absent from the in-memory key set. -/
theorem syncDeletes_closed (rows : List LinkedAccountRow)
    (accs : List LinkedAccount)
    (hE : (rows.map LinkedAccountRow.key).Nodup)
    (hN : (accs.map LinkedAccount.key).Nodup) :
    syncDeletes rows accs =
      rows.filter fun r =>
        ¬ (accs.map LinkedAccount.key).contains r.key := by
  unfold syncDeletes
  rw [existing_accounts_eq rows hE, new_accounts_map_eq accs hN,
    List.filter_map, List.map_map]
  simp [Function.comp_def, List.map_map]

/-- With duplicate-free key sets on both sides, the inserted rows are the
in-memory accounts whose key is absent from the persisted key set. -/
theorem syncInserts_closed (fresh : String × String → Nat) (uid : Nat)
    (rows : List LinkedAccountRow) (accs : List LinkedAccount)
    (hE : (rows.map LinkedAccountRow.key).Nodup)
    (hN : (accs.map LinkedAccount.key).Nodup) :
    syncInserts fresh uid rows accs =
      (accs.filter fun a =>
        ¬ (rows.map LinkedAccountRow.key).contains a.key).map
          fun a => ⟨fresh a.key, uid, a.provider_name,
            a.provider_user_id⟩ := by
  unfold syncInserts
  rw [existing_accounts_eq rows hE, new_accounts_map_eq accs hN,
    List.filter_map, List.map_map]
  simp [Function.comp_def, List.map_map]

/-- C3: the diff sync is an exact set reconciliation.  For a persisted key
set `E` (the rows) and an in-memory key set `N` (the accounts), both free
of internal duplicates: a persisted row is deleted iff its key is in
`E \ N`; the inserted keys are exactly `N \ E`; the persisted key set
after the sync is exactly `N`; and a row whose key is in `E ∩ N` is kept
verbatim, is not deleted, and no inserted row carries its key (rows are
never updated in place: the sync only deletes and inserts). -/
theorem C3_diff_sync_exact_reconciliation (fresh : String × String → Nat)
    (uid : Nat) (rows : List LinkedAccountRow) (accs : List LinkedAccount)
    (hE : (rows.map LinkedAccountRow.key).Nodup)
    (hN : (accs.map LinkedAccount.key).Nodup) :
    (∀ r ∈ rows,
      r ∈ syncDeletes rows accs ↔ r.key ∉ accs.map LinkedAccount.key) ∧
    (∀ k, k ∈ (syncInserts fresh uid rows accs).map LinkedAccountRow.key ↔
      k ∈ accs.map LinkedAccount.key ∧ k ∉ rows.map LinkedAccountRow.key) ∧
    (∀ k, k ∈ (syncResult fresh uid rows accs).map LinkedAccountRow.key ↔
      k ∈ accs.map LinkedAccount.key) ∧
    (∀ r ∈ rows, r.key ∈ accs.map LinkedAccount.key →
      r ∈ syncResult fresh uid rows accs ∧ r ∉ syncDeletes rows accs ∧
      ∀ i ∈ syncInserts fresh uid rows accs, i.key ≠ r.key) := by
  have hDel := syncDeletes_closed rows accs hE hN
  have hIns := syncInserts_closed fresh uid rows accs hE hN
  have h1 : ∀ r ∈ rows,
      r ∈ syncDeletes rows accs ↔ r.key ∉ accs.map LinkedAccount.key := by
    intro r hr
    rw [hDel]
    simp [List.mem_filter, hr]
  have h2 : ∀ k,
      k ∈ (syncInserts fresh uid rows accs).map LinkedAccountRow.key ↔
        k ∈ accs.map LinkedAccount.key ∧
          k ∉ rows.map LinkedAccountRow.key := by
    intro k
    rw [hIns, List.map_map]
    constructor
    · intro hk
      rcases List.mem_map.mp hk with ⟨a, haf, hka⟩
      rcases List.mem_filter.mp haf with ⟨ha, hq⟩
      have hka' : a.key = k := by
        simpa [Function.comp_def, LinkedAccountRow.key,
          LinkedAccount.key] using hka
      subst hka'
      refine ⟨List.mem_map.mpr ⟨a, ha, rfl⟩, ?_⟩
      simpa using hq
    · rintro ⟨hkN, hkE⟩
      rcases List.mem_map.mp hkN with ⟨a, ha, hka⟩
      subst hka
      refine List.mem_map.mpr ⟨a, ?_, ?_⟩
      · refine List.mem_filter.mpr ⟨ha, ?_⟩
        simpa using hkE
      · simp [Function.comp_def, LinkedAccountRow.key, LinkedAccount.key]
  have h4 : ∀ r ∈ rows, r.key ∈ accs.map LinkedAccount.key →
      r ∈ syncResult fresh uid rows accs ∧ r ∉ syncDeletes rows accs ∧
      ∀ i ∈ syncInserts fresh uid rows accs, i.key ≠ r.key := by
    intro r hr hkN
    have hnotdel : r ∉ syncDeletes rows accs :=
      fun hdel => ((h1 r hr).mp hdel) hkN
    refine ⟨?_, hnotdel, ?_⟩
    · unfold syncResult
      refine List.mem_append_left _ ?_
      refine List.mem_filter.mpr ⟨hr, ?_⟩
      simpa using hnotdel
    · intro i hi hik
      have := (h2 i.key).mp (List.mem_map.mpr ⟨i, hi, rfl⟩)
      exact this.2 (hik ▸ List.mem_map.mpr ⟨r, hr, rfl⟩)
  have h3 : ∀ k,
      k ∈ (syncResult fresh uid rows accs).map LinkedAccountRow.key ↔
        k ∈ accs.map LinkedAccount.key := by
    intro k
    unfold syncResult
    rw [List.map_append]
    rw [List.mem_append]
    constructor
    · rintro (hkeep | hins)
      · rcases List.mem_map.mp hkeep with ⟨r, hrf, hkr⟩
        rcases List.mem_filter.mp hrf with ⟨hr, hq⟩
        subst hkr
        by_contra hkn
        exact (by simpa using hq : r ∉ syncDeletes rows accs)
          ((h1 r hr).mpr hkn)
      · exact ((h2 k).mp hins).1
    · intro hkN
      by_cases hkE : k ∈ rows.map LinkedAccountRow.key
      · rcases List.mem_map.mp hkE with ⟨r, hr, hkr⟩
        left
        refine List.mem_map.mpr ⟨r, ?_, hkr⟩
        refine List.mem_filter.mpr ⟨hr, ?_⟩
        have := (h4 r hr (hkr ▸ hkN)).2.1
        simpa using this
      · right
        exact (h2 k).mpr ⟨hkN, hkE⟩
  exact ⟨h1, h2, h3, h4⟩

/-- C3 witness: the spec's own instance — persisted `{A, B}` versus
in-memory `{B, C}`: `A` is deleted, `C` is inserted, the result key set is
exactly `{B, C}`, and the row holding `B` is kept verbatim with no insert
sharing its key. -/
theorem C3_diff_sync_exact_reconciliation_witness :
    (⟨1, 7, "auth0", "A"⟩ ∈
        syncDeletes [⟨1, 7, "auth0", "A"⟩, ⟨2, 7, "auth0", "B"⟩]
          [⟨7, "auth0", "B"⟩, ⟨7, "auth0", "C"⟩] ↔
      (("auth0", "A") : String × String) ∉
        [(("auth0", "B") : String × String), ("auth0", "C")]) ∧
    ((("auth0", "C") : String × String) ∈
        (syncInserts (fun _ => 3) 7 [⟨1, 7, "auth0", "A"⟩, ⟨2, 7, "auth0", "B"⟩]
          [⟨7, "auth0", "B"⟩, ⟨7, "auth0", "C"⟩]).map LinkedAccountRow.key ↔
      ((("auth0", "C") : String × String) ∈
          [(("auth0", "B") : String × String), ("auth0", "C")] ∧
        (("auth0", "C") : String × String) ∉
          [(("auth0", "A") : String × String), ("auth0", "B")])) ∧
    (∀ k, k ∈ (syncResult (fun _ => 3) 7
        [⟨1, 7, "auth0", "A"⟩, ⟨2, 7, "auth0", "B"⟩]
        [⟨7, "auth0", "B"⟩, ⟨7, "auth0", "C"⟩]).map LinkedAccountRow.key ↔
      k ∈ [(("auth0", "B") : String × String), ("auth0", "C")]) ∧
    (⟨2, 7, "auth0", "B"⟩ ∈ syncResult (fun _ => 3) 7
        [⟨1, 7, "auth0", "A"⟩, ⟨2, 7, "auth0", "B"⟩]
        [⟨7, "auth0", "B"⟩, ⟨7, "auth0", "C"⟩] ∧
      ⟨2, 7, "auth0", "B"⟩ ∉ syncDeletes
        [⟨1, 7, "auth0", "A"⟩, ⟨2, 7, "auth0", "B"⟩]
        [⟨7, "auth0", "B"⟩, ⟨7, "auth0", "C"⟩] ∧
      ∀ i ∈ syncInserts (fun _ => 3) 7
          [⟨1, 7, "auth0", "A"⟩, ⟨2, 7, "auth0", "B"⟩]
          [⟨7, "auth0", "B"⟩, ⟨7, "auth0", "C"⟩],
        i.key ≠ LinkedAccountRow.key ⟨2, 7, "auth0", "B"⟩) := by
  have h := C3_diff_sync_exact_reconciliation (fun _ => 3) 7
    [⟨1, 7, "auth0", "A"⟩, ⟨2, 7, "auth0", "B"⟩]
    [⟨7, "auth0", "B"⟩, ⟨7, "auth0", "C"⟩] (by decide) (by decide)
  refine ⟨?_, ?_, ?_, ?_⟩
  · simpa [LinkedAccountRow.key, LinkedAccount.key] using
      h.1 ⟨1, 7, "auth0", "A"⟩ (by decide)
  · simpa [LinkedAccountRow.key, LinkedAccount.key] using
      h.2.1 ("auth0", "C")
  · intro k
    simpa [LinkedAccount.key] using h.2.2.1 k
  · simpa [LinkedAccountRow.key, LinkedAccount.key] using
      h.2.2.2 ⟨2, 7, "auth0", "B"⟩ (by decide) (by decide)

/-- Hydrating rows whose keys are disjoint from the user's current keys
and pairwise distinct never raises, and appends one linked account per
row. -/
theorem addAllAccounts_ok (rows : List LinkedAccountRow) (u : User)
    (h : ((u.linked_accounts.map LinkedAccount.key) ++
        rows.map LinkedAccountRow.key).Nodup) :
    addAllAccounts u rows =
      (none, User.mk u.id u.email u.name u.picture (u.linked_accounts ++
        rows.map (fun r => ⟨u.id, r.provider_name, r.provider_user_id⟩))) := by
  induction rows generalizing u with
  | nil => simp [addAllAccounts]
  | cons r rs ih =>
    have hmem : (r.provider_name, r.provider_user_id) ∉
        u.linked_accounts.map LinkedAccount.key := by
      simp only [List.map_cons] at h
      rcases List.nodup_append.mp h with ⟨-, -, hdisj⟩
      intro hin
      exact hdisj hin (by simp [LinkedAccountRow.key])
    have hscan : (u.linked_accounts.any fun a =>
        a.provider_name == r.provider_name &&
          a.provider_user_id == r.provider_user_id) = false := by
      rw [Bool.eq_false_iff]
      intro hs
      exact hmem ((add_scan_eq_mem u _ _).mp hs)
    have hadd : u.add_linked_account r.provider_name r.provider_user_id =
        (none, { u with linked_accounts := u.linked_accounts ++
          [⟨u.id, r.provider_name, r.provider_user_id⟩] }) := by
      unfold User.add_linked_account
      rw [hscan]
      rfl
    have hstep : addAllAccounts u (r :: rs) =
        addAllAccounts { u with linked_accounts := u.linked_accounts ++
          [⟨u.id, r.provider_name, r.provider_user_id⟩] } rs := by
      conv_lhs => rw [addAllAccounts]
      rw [hadd]
    rw [hstep, ih _ ?_]
    · simp [List.append_assoc]
    · simp only [List.map_append, List.map_cons, List.map_nil]
      simpa [List.append_assoc, LinkedAccount.key, LinkedAccountRow.key]
        using h

/-- `_to_domain_entity` on a stored user with pairwise-distinct account
keys succeeds, producing a user whose accounts mirror the stored rows. -/
theorem to_domain_entity_ok (su : StoredUser)
    (h : (su.accounts.map LinkedAccountRow.key).Nodup) :
    to_domain_entity su = (none, ⟨su.id, su.email, su.name, su.picture,
      su.accounts.map fun r => ⟨su.id, r.provider_name,
        r.provider_user_id⟩⟩) := by
  unfold to_domain_entity
  rw [addAllAccounts_ok su.accounts _ (by simpa using h)]
  simp

/-- C4: find-or-create is idempotent.  If resolving a verified identity
succeeded once — finding an existing user or creating one under a fresh
id not yet present in the store — then resolving the same identity again
against the resulting store returns the very same User (same id) and
leaves the store untouched: no second user is created and no save runs.
Furthermore, re-running the diff sync with an unchanged linked-account
key set performs zero deletions and zero insertions. -/
theorem C4_find_or_create_idempotent (fresh fresh2 : String × String → Nat)
    (id1 id2 : Nat) (st : Store) (c : VerifiedClaim) (u1 : User)
    (st1 : Store)
    (hfree : ∀ su ∈ st, su.id ≠ id1)
    (h1 : resolve_user fresh id1 st c = .ok (u1, st1)) :
    resolve_user fresh2 id2 st1 c = .ok (u1, st1) ∧
    (∀ (rows : List LinkedAccountRow) (accs : List LinkedAccount),
      rows.map LinkedAccountRow.key = accs.map LinkedAccount.key →
      (rows.map LinkedAccountRow.key).Nodup →
      syncDeletes rows accs = [] ∧ syncInserts fresh2 id2 rows accs = []) := by
  constructor
  · unfold resolve_user at h1 ⊢
    cases hfind : find_by_linked_account st "auth0" c.provider_user_id with
    | error e =>
      rw [hfind] at h1
      exact absurd h1 (by simp)
    | ok o =>
      rw [hfind] at h1
      cases o with
      | some u =>
        have h2 : u = u1 ∧ st = st1 := by simpa using h1
        obtain ⟨rfl, rfl⟩ := h2
        rw [hfind]
      | none =>
        have hfl : st.filter (fun su => su.id == id1) = [] :=
          List.filter_eq_nil_iff.mpr (fun su hsu => by simp [hfree su hsu])
        have hsave : save_user fresh st (User.mk id1 c.email c.name c.picture
            [⟨id1, "auth0", c.provider_user_id⟩]) =
            .ok (st ++ [⟨id1, c.email, c.name, c.picture,
              [⟨fresh ("auth0", c.provider_user_id), id1, "auth0",
                c.provider_user_id⟩]⟩]) := by
          unfold save_user
          rw [show List.filter (fun su => su.id ==
              (User.mk id1 c.email c.name c.picture
                [⟨id1, "auth0", c.provider_user_id⟩]).id) st =
              ([] : List StoredUser) from hfl]
          rfl
        have h1' : (match save_user fresh st (User.mk id1 c.email c.name
            c.picture [⟨id1, "auth0", c.provider_user_id⟩]) with
          | .error e => (.error e : Except UserManagementError (User × Store))
          | .ok st' => .ok (User.mk id1 c.email c.name c.picture
              [⟨id1, "auth0", c.provider_user_id⟩], st')) =
            .ok (u1, st1) := h1
        rw [hsave] at h1'
        have h2 : User.mk id1 c.email c.name c.picture
            [⟨id1, "auth0", c.provider_user_id⟩] = u1 ∧
            st ++ [⟨id1, c.email, c.name, c.picture,
              [⟨fresh ("auth0", c.provider_user_id), id1, "auth0",
                c.provider_user_id⟩]⟩] = st1 := by
          simpa using h1'
        obtain ⟨rfl, rfl⟩ := h2
        have hsf : st.filter (fun su => su.accounts.any fun r =>
            r.provider_name == "auth0" &&
              r.provider_user_id == c.provider_user_id) = [] := by
          unfold find_by_linked_account at hfind
          rcases hc : st.filter (fun su => su.accounts.any fun r =>
              r.provider_name == "auth0" &&
                r.provider_user_id == c.provider_user_id) with - | ⟨a, tl⟩
          · exact hc
          · rw [hc] at hfind
            cases tl with
            | nil =>
              have hfind' : (match to_domain_entity a with
                | (some e, _) =>
                    (.error e : Except UserManagementError (Option User))
                | (none, u) => .ok (some u)) = .ok none := hfind
              rcases hta : to_domain_entity a with ⟨oe, ua⟩
              rw [hta] at hfind'
              cases oe <;> simp at hfind'
            | cons b tl2 => simp at hfind
        have hpred : ([(⟨id1, c.email, c.name, c.picture,
            [⟨fresh ("auth0", c.provider_user_id), id1, "auth0",
              c.provider_user_id⟩]⟩ : StoredUser)].filter
            (fun su => su.accounts.any fun r =>
              r.provider_name == "auth0" &&
                r.provider_user_id == c.provider_user_id)) =
            [⟨id1, c.email, c.name, c.picture,
              [⟨fresh ("auth0", c.provider_user_id), id1, "auth0",
                c.provider_user_id⟩]⟩] := by
          simp
        have htd := to_domain_entity_ok (⟨id1, c.email, c.name, c.picture,
          [⟨fresh ("auth0", c.provider_user_id), id1, "auth0",
            c.provider_user_id⟩]⟩ : StoredUser) (by simp)
        have hmatch : (match to_domain_entity (⟨id1, c.email, c.name,
            c.picture, [⟨fresh ("auth0", c.provider_user_id), id1, "auth0",
              c.provider_user_id⟩]⟩ : StoredUser) with
          | (some e, _) =>
              (.error e : Except UserManagementError (Option User))
          | (none, u) => .ok (some u)) =
            .ok (some (User.mk id1 c.email c.name c.picture
              [⟨id1, "auth0", c.provider_user_id⟩])) := by
          rw [htd]
          rfl
        have hfind2 : find_by_linked_account
            (st ++ [⟨id1, c.email, c.name, c.picture,
              [⟨fresh ("auth0", c.provider_user_id), id1, "auth0",
                c.provider_user_id⟩]⟩]) "auth0" c.provider_user_id =
            .ok (some (User.mk id1 c.email c.name c.picture
              [⟨id1, "auth0", c.provider_user_id⟩])) := by
          unfold find_by_linked_account
          rw [List.filter_append, hsf, List.nil_append, hpred]
          exact hmatch
        rw [hfind2]
  · intro rows accs hkeys hnodup
    have hN : (accs.map LinkedAccount.key).Nodup := hkeys ▸ hnodup
    constructor
    · rw [syncDeletes_closed rows accs hnodup hN]
      apply List.filter_eq_nil_iff.mpr
      intro r hr
      have hk : r.key ∈ accs.map LinkedAccount.key := by
        rw [← hkeys]
        exact List.mem_map.mpr ⟨r, hr, rfl⟩
      simp [hk]
    · rw [syncInserts_closed fresh2 id2 rows accs hnodup hN]
      have hfil : (accs.filter fun a =>
          ¬ (rows.map LinkedAccountRow.key).contains a.key) = [] := by
        apply List.filter_eq_nil_iff.mpr
        intro a ha
        have hk : a.key ∈ rows.map LinkedAccountRow.key := by
          rw [hkeys]
          exact List.mem_map.mpr ⟨a, ha, rfl⟩
        simp [hk]
      rw [hfil]
      rfl

/-- C4 witness: starting from an empty store, a first resolve of
`("auth0", "sub-1")` creates user 5; the second resolve returns the same
user and the same one-user store; and a sync where the persisted and
in-memory key sets already agree performs no deletion and no insertion. -/
theorem C4_find_or_create_idempotent_witness :
    resolve_user (fun _ => 21) 6
      [⟨5, "e@example.com", "N", none, [⟨20, 5, "auth0", "sub-1"⟩]⟩]
      ⟨"sub-1", "e@example.com", "N", none⟩ =
      .ok (⟨5, "e@example.com", "N", none, [⟨5, "auth0", "sub-1"⟩]⟩,
        [⟨5, "e@example.com", "N", none, [⟨20, 5, "auth0", "sub-1"⟩]⟩]) ∧
    (syncDeletes [⟨20, 5, "auth0", "sub-1"⟩] [⟨5, "auth0", "sub-1"⟩] = [] ∧
      syncInserts (fun _ => 21) 6 [⟨20, 5, "auth0", "sub-1"⟩]
        [⟨5, "auth0", "sub-1"⟩] = []) := by
  have h := C4_find_or_create_idempotent (fun _ => 20) (fun _ => 21) 5 6
    [] ⟨"sub-1", "e@example.com", "N", none⟩
    ⟨5, "e@example.com", "N", none, [⟨5, "auth0", "sub-1"⟩]⟩
    [⟨5, "e@example.com", "N", none, [⟨20, 5, "auth0", "sub-1"⟩]⟩]
    (by intro su hsu; simp at hsu) (by rfl)
  exact ⟨h.1, h.2 [⟨20, 5, "auth0", "sub-1"⟩] [⟨5, "auth0", "sub-1"⟩]
    (by decide) (by decide)⟩

end AuthProviderConnector
